import Mathlib

/-!
Verification of the Cashtime PIX payment client (`src/cashtime.py`).

The Python module is shallowly embedded as follows:

* Python dictionaries / parsed JSON values are modelled by the inductive
  type `PyVal` (association lists for dicts, `Rat` for floats).
* Python exceptions are modelled by `Except PyExn _`; the two `except`
  clauses of `create_pix_payment` (one for
  `requests.exceptions.RequestException`, one for `Exception`) are the
  two constructors of `PyExn`.
* The HTTP layer (`requests.post` / `requests.get`) is abstracted into a
  `NetResult` argument: either a transport exception or an
  `HttpResponse` carrying the status code and the outcome of `.json()`.
  `response.ok` is `status_code < 400`, as in `requests`.
* CPython floats (IEEE-754 binary64) are modelled exactly over `Rat`:
  `roundDouble` rounds a rational to the nearest double (ties to even,
  53-bit significand), valid on the normal finite range, which covers
  every value arising in the claims.  Amounts supplied by callers are
  carried as the exact rational value of the literal they wrote;
  `float(x)` is `roundDouble`, `x * y` and `x / y` on floats round the
  exact result once, and `int(x)` truncates toward zero.
* `datetime.now()` timestamps and the generated transaction id are
  nondeterministic inputs, so they are passed as explicit parameters.
-/

/-- Python values as they occur in this module: JSON-decoded response
bodies, the request `data` values, and the returned dictionaries. -/
inductive PyVal where
  | none : PyVal
  | bool (b : Bool) : PyVal
  | int (n : ℤ) : PyVal
  | float (q : ℚ) : PyVal
  | str (s : String) : PyVal
  | dict (fields : List (String × PyVal)) : PyVal
  | list (xs : List PyVal) : PyVal

/-- First binding of a key in an association list (Python dict lookup). -/
def lookupFirst : List (String × PyVal) → String → Option PyVal
  | [], _ => Option.none
  | (k, v) :: rest, key => if k = key then Option.some v else lookupFirst rest key

/-- Dictionary lookup: `d[k]` as an `Option`; `none` when `d` is not a
dict or the key is absent. -/
def PyVal.get : PyVal → String → Option PyVal
  | .dict fs, k => lookupFirst fs k
  | _, _ => Option.none

/-- Python truthiness (`bool(v)`) for the values of this module. -/
def pyTruthy : PyVal → Bool
  | .none => false
  | .bool b => b
  | .int n => decide (n ≠ 0)
  | .float q => decide (q ≠ 0)
  | .str s => decide (s ≠ "")
  | .dict fs => !fs.isEmpty
  | .list xs => !xs.isEmpty

/-- Truthiness of an optional string: `some s` with `s ≠ ""`.  Models
`if x:` on a value that is either absent (`None`) or a string. -/
def optStrTruthy : Option String → Bool
  | Option.none => false
  | Option.some s => decide (s ≠ "")

/-! ## IEEE-754 binary64 arithmetic over `Rat`

`roundDouble q` is the value of the double nearest to `q` (ties to
even, 53-bit significand), for `q` in the normal finite range of
binary64.  All arithmetic is done on the numerator and denominator with
primitive `Nat`/`Int` operations and `mkRat`, so every definition
reduces inside `decide`/`rfl`; the exponent search is fuel-bounded
structural recursion (fuel 2200 covers the binary64 exponent range). -/

/-- Largest `k` with `2 ^ k ≤ n / d`, for `n ≥ d ≥ 1`; fuel-bounded. -/
def flog2ND : ℕ → ℕ → ℕ → ℕ
  | 0, _, _ => 0
  | fuel + 1, n, d => if n < 2 * d then 0 else flog2ND fuel n (2 * d) + 1

/-- Smallest `k` with `n / d ≤ 2 ^ k`, for `n, d ≥ 1`; fuel-bounded. -/
def clog2ND : ℕ → ℕ → ℕ → ℕ
  | 0, _, _ => 0
  | fuel + 1, n, d => if n ≤ d then 0 else clog2ND fuel n (2 * d) + 1

/-- Floor of `log₂ (n / d)` for `n, d ≥ 1` (negative when `n < d`):
the unique `e` with `2 ^ e ≤ n / d < 2 ^ (e + 1)`. -/
def floorLog2ND (n d : ℕ) : ℤ :=
  if d ≤ n then (flog2ND 2200 n d : ℤ) else -(clog2ND 2200 d n : ℤ)

/-- Round `n / d` to the nearest natural number, ties to even. -/
def rne (n d : ℕ) : ℕ :=
  if 2 * (n % d) < d then n / d
  else if d < 2 * (n % d) then n / d + 1
  else if n / d % 2 = 0 then n / d else n / d + 1

/-- Round the positive rational `n / d` (`n, d ≥ 1`) to 53 significant
bits, ties to even — IEEE-754 binary64 rounding for values in the
normal finite range; `neg` negates the result.  With `e` the binary
exponent and `s = 52 - e`, the significand is `n / d` scaled by `2 ^ s`
and rounded to the nearest integer (ties to even), and the result is
that integer scaled back by `2 ^ (-s)`. -/
def roundDoubleND (neg : Bool) (n d : ℕ) : ℚ :=
  let s : ℤ := 52 - floorLog2ND n d
  let m : ℕ := if 0 ≤ s then rne (n * 2 ^ s.toNat) d else rne n (d * 2 ^ (-s).toNat)
  let v : ℤ := if neg then -(m : ℤ) else (m : ℤ)
  if 0 ≤ s then mkRat v (2 ^ s.toNat) else mkRat (v * 2 ^ (-s).toNat) 1

/-- Round a rational to the nearest IEEE-754 binary64 value (ties to
even), for inputs in the normal finite range. -/
def roundDouble (q : ℚ) : ℚ :=
  if q.num = 0 then 0
  else if 0 < q.num then roundDoubleND false q.num.natAbs q.den
  else roundDoubleND true q.num.natAbs q.den

/-- Python `int(x)` on a float: truncation toward zero, computed as
sign times the floor division `|num| / den`. -/
def truncToward0 (q : ℚ) : ℤ :=
  if 0 ≤ q.num then ((q.num.natAbs / q.den : ℕ) : ℤ)
  else -((q.num.natAbs / q.den : ℕ) : ℤ)

/-- Exact multiplication of a rational by a natural number
(`num * k / den`, normalized). -/
def qMulNat (q : ℚ) (k : ℕ) : ℚ := mkRat (q.num * (k : ℤ)) q.den

/-- Exact division of a rational by a natural number
(`num / (den * k)`, normalized). -/
def qDivNat (q : ℚ) (k : ℕ) : ℚ := mkRat q.num (q.den * k)

/-- `int(float(a) * 100)` (line 53): the caller's amount `a` (exact
rational value of what was passed) converted to a double, multiplied by
the exactly representable double `100` with one rounding, then
truncated toward zero. -/
def amountCents (a : ℚ) : ℤ :=
  truncToward0 (roundDouble (qMulNat (roundDouble a) 100))

/-- Python `m / n` on machine-range integers: true division, producing
a float (the exact quotient, rounded once). -/
def floatDivInt (m : ℤ) (n : ℕ) : ℚ :=
  roundDouble (mkRat m n)

/-! ## Client state and headers -/

/-- The `CashtimeAPI` client: immutable credentials (lines 16-18). -/
structure CashtimeAPI where
  secret_key : String
  public_key : Option String
deriving DecidableEq

/-- `_get_headers` (lines 20-30): content type and secret key always;
`x-store-key` added exactly when `self.public_key` is truthy. -/
def CashtimeAPI.getHeaders (c : CashtimeAPI) : List (String × String) :=
  [("Content-Type", "application/json"),
   ("x-authorization-key", c.secret_key)] ++
  (if optStrTruthy c.public_key then
    [("x-store-key", (c.public_key).getD "")]
   else [])

/-- A public key counts as configured when it is present and non-empty,
which is what `if self.public_key:` (line 27) tests. -/
def publicKeyConfigured (c : CashtimeAPI) : Bool :=
  optStrTruthy c.public_key

/-- First binding of a header name. -/
def headerLookup : List (String × String) → String → Option String
  | [], _ => Option.none
  | (k, v) :: rest, key => if k = key then Option.some v else headerLookup rest key

/-! ## Factory -/

/-- Truthiness of `secret_key` / `public_key` arguments (absent or
empty string are falsy). -/
def optFalsy (o : Option String) : Bool :=
  !optStrTruthy o

/-- `create_cashtime_api` (lines 182-192).  `env` models `os.environ`:
`env name` is `os.environ.get(name)`.  A missing secret key raises
`ValueError`, modelled as `Except.error` with the raised message. -/
def create_cashtime_api (secret_key public_key : Option String)
    (env : String → Option String) : Except String CashtimeAPI :=
  let sk : Option String :=
    if optFalsy secret_key then env "CASHTIME_SECRET_KEY" else secret_key
  if optFalsy sk then
    Except.error "CASHTIME_SECRET_KEY não encontrada nas variáveis de ambiente"
  else
    let pk : Option String :=
      if optFalsy public_key then env "CASHTIME_PUBLIC_KEY" else public_key
    Except.ok { secret_key := sk.getD "", public_key := pk }

/-! ## Exceptions, HTTP layer -/

/-- Python exceptions as seen by the two `except` clauses of
`create_pix_payment`: `requestExn` for
`requests.exceptions.RequestException` and its subclasses, `otherExn`
for every other `Exception` (`ValueError`, `AttributeError`, ...).
Each carries `str(e)`. -/
inductive PyExn where
  | requestExn (msg : String) : PyExn
  | otherExn (msg : String) : PyExn

/-- An HTTP response: status code, raw text, and the outcome of
`response.json()` (`Except.error` models a JSON decode failure, which
`requests` raises as a `RequestException` subclass). -/
structure HttpResponse where
  status_code : ℕ
  text : String
  jsonBody : Except String PyVal

/-- Outcome of an HTTP call: a transport-level `RequestException`
(connection error, timeout, ...) or a response. -/
inductive NetResult where
  | exn (msg : String) : NetResult
  | resp (r : HttpResponse) : NetResult

/-- `requests`' `Response.ok`: true exactly when `status_code < 400`. -/
def HttpResponse.isOk (r : HttpResponse) : Bool :=
  r.status_code < 400

/-! ## Input data for `create_pix_payment`

The `data` dictionary, with the fields the module reads.  `amount`
carries the exact rational value of the number the caller supplied
(already-rounded doubles are fixed points of `roundDouble`, so this
also covers callers passing Python floats). -/

structure PaymentData where
  amount : Option ℚ
  description : Option String
  name : Option String
  email : Option String
  phone : Option String
  cpf : Option String
  expirationMinutes : Option ℕ

/-- `'amount' not in data or not data['amount']` (line 44): absent or
zero (the only falsy float values are `0.0` and `-0.0`). -/
def amountFalsy (d : PaymentData) : Bool :=
  match d.amount with
  | Option.none => true
  | Option.some a => decide (a = 0)

/-- `'description' not in data or not data['description']` (line 44). -/
def descriptionFalsy (d : PaymentData) : Bool :=
  optFalsy d.description

/-! ## The provider payload (lines 56-82) -/

structure CustomerDocument where
  number : String
  type : String

structure Customer where
  name : String
  email : String
  phone : String
  document : CustomerDocument

structure Item where
  title : String
  description : String
  unitPrice : ℤ
  quantity : ℕ
  tangible : Bool

structure CashtimePayload where
  paymentMethod : String
  customer : Customer
  items : List Item
  isInfoProducts : Bool
  installments : ℕ
  installmentFee : ℕ
  postbackUrl : String
  ip : String
  amount : ℤ

/-- `data.get('cpf', '').replace('.', '').replace('-', '')` (line 63):
replacing the single-character patterns `'.'` and `'-'` by the empty
string deletes every occurrence of those characters. -/
def stripCpfPunct (s : String) : String :=
  String.mk (s.data.filter (fun ch => !(ch = '.' || ch = '-')))

/-- The `cashtime_payload` dictionary (lines 56-82), as a function of
the validated input and the converted amount in cents. -/
def buildPayload (d : PaymentData) (amount_cents : ℤ) : CashtimePayload :=
  { paymentMethod := "pix"
    customer :=
      { name := d.name.getD "Cliente"
        email := d.email.getD "cliente@dominio.com.br"
        phone := d.phone.getD "11999999999"
        document :=
          { number := stripCpfPunct (d.cpf.getD "")
            type := "cpf" } }
    items :=
      [{ title := "Regularização de Débitos"
         description := d.description.getD ""
         unitPrice := amount_cents
         quantity := 1
         tangible := false }]
    isInfoProducts := true
    installments := 1
    installmentFee := 0
    postbackUrl := "https://webhook.site/unique-uuid-4-testing"
    ip := "127.0.0.1"
    amount := amount_cents }

/-- The JSON keys under which the payload is serialized. -/
def payloadKeys : List String :=
  ["paymentMethod", "customer", "name", "email", "phone", "document",
   "number", "type", "items", "title", "description", "unitPrice",
   "quantity", "tangible", "isInfoProducts", "installments",
   "installmentFee", "postbackUrl", "ip", "amount"]

/-- Every string occurring anywhere in the serialized payload: all JSON
keys and all string values (leaves of the JSON tree). -/
def CashtimePayload.strings (p : CashtimePayload) : List String :=
  payloadKeys ++
  [p.paymentMethod, p.customer.name, p.customer.email, p.customer.phone,
   p.customer.document.number, p.customer.document.type] ++
  (p.items.map (fun i => [i.title, i.description])).flatten ++
  [p.postbackUrl, p.ip]

/-- The strings of the payload that originate in the input data (with
the silently substituted defaults of lines 59-63, 70). -/
def dataStrings (d : PaymentData) : List String :=
  [d.name.getD "Cliente", d.email.getD "cliente@dominio.com.br",
   d.phone.getD "11999999999", stripCpfPunct (d.cpf.getD ""),
   d.description.getD ""]

/-- The constant strings of the payload (keys and fixed values). -/
def payloadConstants : List String :=
  payloadKeys ++
  ["pix", "cpf", "Regularização de Débitos",
   "https://webhook.site/unique-uuid-4-testing", "127.0.0.1"]

/-! ## Dictionary method calls that may raise -/

/-- `v.get(k, dflt)`: succeeds on a dict, raises `AttributeError`
(an ordinary `Exception`) on any other value. -/
def pyDictGetD (v : PyVal) (k : String) (dflt : PyVal) : Except PyExn PyVal :=
  match v with
  | .dict fs => Except.ok ((lookupFirst fs k).getD dflt)
  | _ => Except.error (.otherExn "AttributeError: object has no attribute get")

/-- Python `v / 100` (line 170): true division producing a float on
numeric operands, `TypeError` otherwise (`bool` divides as `0`/`1`). -/
def pyDiv100 (v : PyVal) : Except PyExn PyVal :=
  match v with
  | .int n => Except.ok (.float (floatDivInt n 100))
  | .float q => Except.ok (.float (roundDouble (qDivNat q 100)))
  | .bool b => Except.ok (.float (floatDivInt (if b then 1 else 0) 100))
  | _ => Except.error (.otherExn "TypeError: unsupported operand type for /")

/-- `{'success': False, 'error': msg}` (lines 158, 161, 179). -/
def failDict (msg : String) : PyVal :=
  .dict [("success", .bool false), ("error", .str msg)]

/-- `data.get(k)` rendered as a result value: `None` when absent. -/
def optPy : Option String → PyVal
  | Option.none => .none
  | Option.some s => .str s

/-! ## `create_pix_payment` (lines 36-145) -/

/-- Lines 108-135: extract the PIX fields from the decoded response and
assemble the result dictionary.  The `.get` calls raise (and are later
caught) when the decoded JSON is not a dict. -/
def formatCreateResult (cashtime_result : PyVal) (txid : String) (a : ℚ)
    (desc expiresAtIso createdAtIso : String) (d : PaymentData) :
    Except PyExn PyVal := do
  let pix_data ← pyDictGetD cashtime_result "pix" (.dict [])
  let pix_code ← pyDictGetD pix_data "payload" (.str "")
  let qr_code_image ← pyDictGetD pix_data "encodedImage" (.str "")
  let cashtime_id ← pyDictGetD cashtime_result "id" (.str "")
  let status ← pyDictGetD cashtime_result "status" (.str "pending")
  Except.ok (.dict
    [("success", .bool true),
     ("txid", .str txid),
     ("cashtime_id", cashtime_id),
     ("amount", .float a),
     ("currency", .str "BRL"),
     ("description", .str desc),
     ("status", status),
     ("pix_code", pix_code),
     ("qr_code_image", qr_code_image),
     ("expires_at", .str expiresAtIso),
     ("created_at", .str createdAtIso),
     ("payer", .dict
       [("name", optPy d.name),
        ("cpf", optPy d.cpf),
        ("email", optPy d.email)]),
     ("cashtime_response", cashtime_result)])

/-- Lines 86-138 for validated input: send the payload and interpret
the outcome.  The second component records the POSTed payloads. -/
def createAfterValidation (d : PaymentData) (a : ℚ)
    (desc txid expiresAtIso createdAtIso : String) (net : NetResult) :
    Except PyExn PyVal × List CashtimePayload :=
  let payload := buildPayload d (amountCents a)
  match net with
  | .exn m => (Except.error (.requestExn m), [payload])
  | .resp r =>
    if 400 ≤ r.status_code then
      if r.status_code = 403 then
        (Except.error (.otherExn
          "Erro de autenticação. Verifique sua secret key da Cashtime"), [payload])
      else if r.status_code = 400 then
        (Except.error (.otherExn "Dados inválidos enviados para a API"), [payload])
      else
        (Except.error (.otherExn
          ("Erro na API Cashtime: " ++ toString r.status_code)), [payload])
    else
      match r.jsonBody with
      | Except.error m => (Except.error (.requestExn m), [payload])
      | Except.ok cashtime_result =>
        (formatCreateResult cashtime_result txid a desc expiresAtIso createdAtIso d,
         [payload])

/-- The body of the `try` block (lines 38-138): validation, payload
construction, the POST, and response interpretation. -/
def createBody (d : PaymentData) (txid : String)
    (expiresAtIso createdAtIso : String) (net : NetResult) :
    Except PyExn PyVal × List CashtimePayload :=
  match d.amount with
  | Option.none => (Except.error (.otherExn "Campo obrigatório ausente: amount"), [])
  | Option.some a =>
    if a = 0 then
      (Except.error (.otherExn "Campo obrigatório ausente: amount"), [])
    else
      match d.description with
      | Option.none =>
        (Except.error (.otherExn "Campo obrigatório ausente: description"), [])
      | Option.some desc =>
        if desc = "" then
          (Except.error (.otherExn "Campo obrigatório ausente: description"), [])
        else
          createAfterValidation d a desc txid expiresAtIso createdAtIso net

/-- `create_pix_payment` (lines 36-145).  The two `except` clauses
rewrap the exception: a `RequestException` becomes
`"Erro de conexão com a API: ..."` (line 142) and every other
exception becomes `"Erro ao processar pagamento: ..."` (line 145);
both propagate to the caller as a raised `Exception`, modelled as
`Except.error` carrying the final message.  The second component lists
the payloads POSTed to the provider during the call. -/
def create_pix_payment (_c : CashtimeAPI) (d : PaymentData) (txid : String)
    (expiresAtIso createdAtIso : String) (net : NetResult) :
    Except String PyVal × List CashtimePayload :=
  match createBody d txid expiresAtIso createdAtIso net with
  | (Except.ok v, posts) => (Except.ok v, posts)
  | (Except.error (.requestExn m), posts) =>
    (Except.error ("Erro de conexão com a API: " ++ m), posts)
  | (Except.error (.otherExn m), posts) =>
    (Except.error ("Erro ao processar pagamento: " ++ m), posts)

/-! ## `check_payment_status` (lines 147-179) -/

/-- Line 170: `orders.get('total', 0) / 100 if orders.get('total') else 0`
given the already-evaluated condition operand `totalTest`. -/
def computeAmount (orders totalTest : PyVal) : Except PyExn PyVal :=
  if pyTruthy totalTest then do
    let t ← pyDictGetD orders "total" (.int 0)
    pyDiv100 t
  else Except.ok (.int 0)

/-- Lines 163-175: decode the body, read the nested `orders` object and
assemble the success dictionary. -/
def checkSuccessDict (txid : String) (result : PyVal) : Except PyExn PyVal := do
  let orders ← pyDictGetD result "orders" (.dict [])
  let status ← pyDictGetD orders "status" (.str "unknown")
  let totalTest ← pyDictGetD orders "total" PyVal.none
  let amount ← computeAmount orders totalTest
  let payment_method ← pyDictGetD orders "paymentMethod" PyVal.none
  let created_at ← pyDictGetD orders "createdAt" PyVal.none
  let updated_at ← pyDictGetD orders "updatedAt" PyVal.none
  Except.ok (.dict
    [("success", .bool true),
     ("txid", .str txid),
     ("status", status),
     ("amount", amount),
     ("payment_method", payment_method),
     ("created_at", created_at),
     ("updated_at", updated_at),
     ("cashtime_response", result)])

/-- The body of the `try` block (lines 149-175). -/
def checkBody (txid : String) (net : NetResult) : Except PyExn PyVal :=
  match net with
  | .exn m => Except.error (.requestExn m)
  | .resp r =>
    if r.status_code = 404 then
      Except.ok (failDict "Transação não encontrada")
    else if 400 ≤ r.status_code then
      Except.ok (failDict ("Erro na API: " ++ toString r.status_code))
    else
      match r.jsonBody with
      | Except.error m => Except.error (.requestExn m)
      | Except.ok result => checkSuccessDict txid result

/-- `check_payment_status` (lines 147-179): the blanket
`except Exception` (line 177) converts every exception into
`{'success': False, 'error': str(e)}`, so the function always returns
a dictionary and never raises — its type here is total. -/
def check_payment_status (_c : CashtimeAPI) (txid : String) (net : NetResult) : PyVal :=
  match checkBody txid net with
  | Except.ok v => v
  | Except.error (.requestExn m) => failDict m
  | Except.error (.otherExn m) => failDict m

/-! ## Sample values used for concrete instantiations -/

def sampleClient : CashtimeAPI :=
  { secret_key := "sk-test", public_key := Option.some "pk-test" }

def sampleData : PaymentData :=
  { amount := Option.some (5 : ℚ)
    description := Option.some "Pagamento de teste"
    name := Option.none
    email := Option.none
    phone := Option.none
    cpf := Option.none
    expirationMinutes := Option.none }

def sampleData199 : PaymentData :=
  { sampleData with amount := Option.some (mkRat 199 10) }

def sampleDataNoAmount : PaymentData :=
  { sampleData with amount := Option.none }

/-- A well-formed provider response body for transaction creation. -/
def sampleBody : PyVal :=
  .dict [("id", .str "ct-1"), ("status", .str "pending"),
         ("pix", .dict [("payload", .str "00020126pixcode"),
                        ("encodedImage", .str "b64img")])]

def sampleResp (code : ℕ) : HttpResponse :=
  { status_code := code, text := "", jsonBody := Except.ok sampleBody }

/-- A well-formed provider response body for a status lookup. -/
def sampleOrders : List (String × PyVal) :=
  [("status", .str "paid"), ("total", .int 1990), ("paymentMethod", .str "pix"),
   ("createdAt", .str "2025-01-01T00:00:00"), ("updatedAt", .str "2025-01-02T00:00:00")]

def sampleStatusResp : HttpResponse :=
  { status_code := 200, text := "",
    jsonBody := Except.ok (.dict [("orders", .dict sampleOrders)]) }

/-- The result dictionary produced for `sampleData` with a 2xx
`sampleBody` response, txid `"t"` and timestamps `"e1"`/`"e2"`. -/
def sampleResult : PyVal :=
  .dict
    [("success", .bool true), ("txid", .str "t"), ("cashtime_id", .str "ct-1"),
     ("amount", .float (5 : ℚ)), ("currency", .str "BRL"),
     ("description", .str "Pagamento de teste"), ("status", .str "pending"),
     ("pix_code", .str "00020126pixcode"), ("qr_code_image", .str "b64img"),
     ("expires_at", .str "e1"), ("created_at", .str "e2"),
     ("payer", .dict [("name", PyVal.none), ("cpf", PyVal.none), ("email", PyVal.none)]),
     ("cashtime_response", sampleBody)]

/-! ## Claims -/

/-- C5: for every client state, the header map returned by
`_get_headers` always contains the content-type entry and the secret
key under the fixed name `x-authorization-key`; it contains the
public-key header `x-store-key` if and only if a public key was
configured (present and non-empty, the truthiness test of line 27); and
it is a pure function of the client's credential fields. -/
theorem getHeaders_spec (c : CashtimeAPI) :
    headerLookup c.getHeaders "Content-Type" = Option.some "application/json" ∧
    headerLookup c.getHeaders "x-authorization-key" = Option.some c.secret_key ∧
    ((∃ pk, headerLookup c.getHeaders "x-store-key" = Option.some pk) ↔
      publicKeyConfigured c = true) ∧
    (∀ pk, c.public_key = Option.some pk → pk ≠ "" →
      headerLookup c.getHeaders "x-store-key" = Option.some pk) ∧
    (∀ c' : CashtimeAPI, c.secret_key = c'.secret_key →
      c.public_key = c'.public_key → c.getHeaders = c'.getHeaders) := by
  obtain ⟨sk, pk⟩ := c
  refine ⟨?_, ?_, ?_, ?_, ?_⟩
  · cases pk with
    | none => rfl
    | some s =>
      by_cases hs : s = "" <;>
        simp [CashtimeAPI.getHeaders, optStrTruthy, hs, headerLookup]
  · cases pk with
    | none => rfl
    | some s =>
      by_cases hs : s = "" <;>
        simp [CashtimeAPI.getHeaders, optStrTruthy, hs, headerLookup]
  · cases pk with
    | none =>
      simp [CashtimeAPI.getHeaders, publicKeyConfigured, optStrTruthy, headerLookup]
    | some s =>
      by_cases hs : s = "" <;>
        simp [CashtimeAPI.getHeaders, publicKeyConfigured, optStrTruthy, hs, headerLookup]
  · intro pk' hpk hne
    cases hpk
    simp [CashtimeAPI.getHeaders, optStrTruthy, hne, headerLookup]
  · intro c' h1 h2
    obtain ⟨sk', pk'⟩ := c'
    simp only at h1 h2
    subst h1; subst h2; rfl

/-- C5 witness: instantiation at a concrete client. -/
theorem getHeaders_spec_witness :
    headerLookup sampleClient.getHeaders "Content-Type" =
      Option.some "application/json" ∧
    headerLookup sampleClient.getHeaders "x-authorization-key" =
      Option.some sampleClient.secret_key := by
  obtain ⟨h1, h2, _, _, _⟩ := getHeaders_spec sampleClient
  exact ⟨h1, h2⟩

/-- C7: the factory fails with the configuration error exactly when no
secret key is available from the explicit argument or the environment
variable `CASHTIME_SECRET_KEY`; every constructed client has a
non-empty secret key; absence of the public key is never an error (the
error condition does not mention it). -/
theorem create_cashtime_api_spec (skArg pkArg : Option String)
    (env : String → Option String) :
    ((∃ e, create_cashtime_api skArg pkArg env = Except.error e) ↔
      (optFalsy skArg = true ∧ optFalsy (env "CASHTIME_SECRET_KEY") = true)) ∧
    (∀ c, create_cashtime_api skArg pkArg env = Except.ok c →
      c.secret_key ≠ "") := by
  constructor
  · by_cases h1 : optFalsy skArg = true
    · by_cases h2 : optFalsy (env "CASHTIME_SECRET_KEY") = true
      · simp [create_cashtime_api, h1, h2]
      · simp [create_cashtime_api, h1, h2]
    · simp [create_cashtime_api, h1]
  · intro c hc
    unfold create_cashtime_api at hc
    by_cases h1 : optFalsy skArg = true
    · simp only [h1, if_true] at hc
      by_cases h2 : optFalsy (env "CASHTIME_SECRET_KEY") = true
      · simp [h2] at hc
      · simp only [h2, if_false, Bool.false_eq_true] at hc
        cases hc
        cases henv : env "CASHTIME_SECRET_KEY" with
        | none => rw [henv] at h2; simp [optFalsy, optStrTruthy] at h2
        | some s =>
          rw [henv] at h2
          simp [optFalsy, optStrTruthy] at h2
          simpa using h2
    · simp only [h1, if_false, Bool.false_eq_true] at hc
      have h1' : optStrTruthy skArg = true := by
        cases hh : optFalsy skArg with
        | true => exact absurd hh h1
        | false => simpa [optFalsy] using hh
      simp only [optFalsy, h1', Bool.not_true, if_false, Bool.false_eq_true] at hc
      cases hc
      cases hsk : skArg with
      | none => rw [hsk] at h1'; simp [optStrTruthy] at h1'
      | some s =>
        rw [hsk] at h1'
        simp [optStrTruthy] at h1'
        simpa using h1'

/-- C7 witness: with no secret key anywhere the factory fails; with an
explicit secret key it succeeds and the key is non-empty. -/
theorem create_cashtime_api_spec_witness :
    (optFalsy Option.none = true ∧
      optFalsy ((fun _ => Option.none : String → Option String)
        "CASHTIME_SECRET_KEY") = true) ∧
    (∃ e, create_cashtime_api Option.none Option.none
      (fun _ => Option.none) = Except.error e) := by
  have h := create_cashtime_api_spec Option.none Option.none (fun _ => Option.none)
  refine ⟨⟨by decide, by decide⟩, h.1.mpr ⟨by decide, by decide⟩⟩

/-- Inversion for `Except` bind: a successful chain has a successful
first step. -/
theorem exceptBindOk {α β : Type} (x : Except PyExn α) (f : α → Except PyExn β)
    (b : β) (h : x >>= f = Except.ok b) :
    ∃ a, x = Except.ok a ∧ f a = Except.ok b := by
  cases x with
  | error e => simp [Bind.bind, Except.bind] at h
  | ok a => exact ⟨a, rfl, by simpa [Bind.bind, Except.bind] using h⟩

/-- A successful `checkSuccessDict` always returns a dictionary whose
first entry is `'success': True`. -/
theorem checkSuccessDict_ok (txid : String) (result v : PyVal)
    (h : checkSuccessDict txid result = Except.ok v) :
    ∃ rest, v = PyVal.dict (("success", PyVal.bool true) :: rest) := by
  unfold checkSuccessDict at h
  obtain ⟨orders, h1, h⟩ := exceptBindOk _ _ _ h
  obtain ⟨status, h2, h⟩ := exceptBindOk _ _ _ h
  obtain ⟨totalTest, h3, h⟩ := exceptBindOk _ _ _ h
  obtain ⟨amount, h4, h⟩ := exceptBindOk _ _ _ h
  obtain ⟨pm, h5, h⟩ := exceptBindOk _ _ _ h
  obtain ⟨ca, h6, h⟩ := exceptBindOk _ _ _ h
  obtain ⟨ua, h7, h⟩ := exceptBindOk _ _ _ h
  cases h
  exact ⟨_, rfl⟩

/-- A successful `checkBody` returns either a failure dictionary or a
dictionary whose first entry is `'success': True`. -/
theorem checkBody_ok (txid : String) (net : NetResult) (v : PyVal)
    (h : checkBody txid net = Except.ok v) :
    (∃ m, v = failDict m) ∨
    (∃ rest, v = PyVal.dict (("success", PyVal.bool true) :: rest)) := by
  unfold checkBody at h
  cases net with
  | exn m => simp at h
  | resp r =>
    by_cases h404 : r.status_code = 404
    · simp only [h404, if_true] at h
      cases h
      exact Or.inl ⟨_, rfl⟩
    · simp only [h404, if_false] at h
      by_cases h400 : 400 ≤ r.status_code
      · simp only [h400, if_true] at h
        cases h
        exact Or.inl ⟨_, rfl⟩
      · simp only [h400, if_false] at h
        cases hjb : r.jsonBody with
        | error m => rw [hjb] at h; exact absurd h (by simp)
        | ok result =>
          rw [hjb] at h
          exact Or.inr (checkSuccessDict_ok txid result v h)

/-- C1: `check_payment_status` never raises: for every identifier and
every provider/transport behaviour it returns a dictionary containing a
`'success'` key, and on every non-success path that dictionary is
exactly `{'success': False, 'error': message}`. -/
theorem checkStatus_never_raises (c : CashtimeAPI) (txid : String) (net : NetResult) :
    (∃ v, (check_payment_status c txid net).get "success" = Option.some v) ∧
    ((check_payment_status c txid net).get "success" ≠ Option.some (PyVal.bool true) →
      ∃ m, check_payment_status c txid net = failDict m) := by
  unfold check_payment_status
  cases hb : checkBody txid net with
  | error e =>
    cases e with
    | requestExn m =>
      exact ⟨⟨PyVal.bool false, rfl⟩, fun _ => ⟨m, rfl⟩⟩
    | otherExn m =>
      exact ⟨⟨PyVal.bool false, rfl⟩, fun _ => ⟨m, rfl⟩⟩
  | ok v =>
    rcases checkBody_ok txid net v hb with ⟨m, rfl⟩ | ⟨rest, rfl⟩
    · exact ⟨⟨PyVal.bool false, rfl⟩, fun _ => ⟨m, rfl⟩⟩
    · refine ⟨⟨PyVal.bool true, by simp [PyVal.get, lookupFirst]⟩, fun hne => ?_⟩
      exact absurd (by simp [PyVal.get, lookupFirst]) hne

/-- C8: a 404 status-lookup response yields the structured not-found
failure, whose message differs from the status-code-carrying generic
error message. -/
theorem checkStatus_404 (c : CashtimeAPI) (txid : String) (r : HttpResponse)
    (h : r.status_code = 404) :
    check_payment_status c txid (NetResult.resp r) =
      failDict "Transação não encontrada" ∧
    failDict "Transação não encontrada" ≠
      failDict ("Erro na API: " ++ toString r.status_code) := by
  constructor
  · unfold check_payment_status checkBody
    simp [h]
  · rw [h]
    intro hcontra
    have h2 := congrArg (fun v => PyVal.get v "error") hcontra
    simp only [failDict, PyVal.get, lookupFirst] at h2
    simp at h2
    exact absurd h2 (by decide)

/-- C8 witness: the not-found branch at a concrete 404 response. -/
theorem checkStatus_404_witness :
    check_payment_status sampleClient "tx-1" (NetResult.resp (sampleResp 404)) =
      failDict "Transação não encontrada" :=
  (checkStatus_404 sampleClient "tx-1" (sampleResp 404) rfl).1

/-- The rewrapping `except` clauses preserve which payloads were
POSTed. -/
theorem create_snd (c : CashtimeAPI) (d : PaymentData)
    (txid e1 e2 : String) (net : NetResult) :
    (create_pix_payment c d txid e1 e2 net).2 = (createBody d txid e1 e2 net).2 := by
  unfold create_pix_payment
  cases hcb : createBody d txid e1 e2 net with
  | mk fst snd =>
    cases fst with
    | ok w => rfl
    | error e => cases e <;> rfl

/-- The rewrapping `except` clauses preserve a successful result. -/
theorem create_fst_ok (c : CashtimeAPI) (d : PaymentData)
    (txid e1 e2 : String) (net : NetResult) (v : PyVal)
    (h : (create_pix_payment c d txid e1 e2 net).1 = Except.ok v) :
    (createBody d txid e1 e2 net).1 = Except.ok v := by
  unfold create_pix_payment at h
  cases hcb : createBody d txid e1 e2 net with
  | mk fst snd =>
    rw [hcb] at h
    cases fst with
    | ok w => simpa using h
    | error e => cases e <;> simp at h

/-- On validated input the `try` body reduces to the post-validation
stage. -/
theorem createBody_validated (d : PaymentData) (a : ℚ) (desc : String)
    (txid e1 e2 : String) (net : NetResult)
    (ha : d.amount = Option.some a) (ha0 : a ≠ 0)
    (hd : d.description = Option.some desc) (hd0 : desc ≠ "") :
    createBody d txid e1 e2 net = createAfterValidation d a desc txid e1 e2 net := by
  unfold createBody
  rw [ha, hd]
  simp [ha0, hd0]

/-- Every branch after validation records exactly one POSTed payload. -/
theorem createAfterValidation_snd (d : PaymentData) (a : ℚ) (desc : String)
    (txid e1 e2 : String) (net : NetResult) :
    (createAfterValidation d a desc txid e1 e2 net).2 =
      [buildPayload d (amountCents a)] := by
  unfold createAfterValidation
  cases net with
  | exn m => rfl
  | resp r =>
    by_cases h4 : 400 ≤ r.status_code
    · by_cases h403 : r.status_code = 403
      · simp [h4, h403]
      · by_cases h400 : r.status_code = 400 <;> simp [h4, h403, h400]
    · cases hjb : r.jsonBody with
      | error m => simp [h4, hjb]
      | ok res => simp [h4, hjb]

/-- A successful post-validation stage comes from a decoded response
body fed through the result formatter. -/
theorem createAfterValidation_ok (d : PaymentData) (a : ℚ) (desc : String)
    (txid e1 e2 : String) (net : NetResult) (v : PyVal)
    (h : (createAfterValidation d a desc txid e1 e2 net).1 = Except.ok v) :
    ∃ res, formatCreateResult res txid a desc e1 e2 d = Except.ok v := by
  unfold createAfterValidation at h
  cases net with
  | exn m => simp at h
  | resp r =>
    by_cases h4 : 400 ≤ r.status_code
    · by_cases h403 : r.status_code = 403
      · simp [h4, h403] at h
      · by_cases h400 : r.status_code = 400 <;> simp [h4, h403, h400] at h
    · cases hjb : r.jsonBody with
      | error m => simp [h4, hjb] at h
      | ok res =>
        simp only [h4, if_false, hjb] at h
        exact ⟨res, by simpa using h⟩

/-- A successful result formatter call returns the full result
dictionary, with the client txid, the echoed raw inputs, and the raw
payer fields. -/
theorem formatCreateResult_ok (res : PyVal) (txid : String) (a : ℚ)
    (desc e1 e2 : String) (d : PaymentData) (v : PyVal)
    (h : formatCreateResult res txid a desc e1 e2 d = Except.ok v) :
    ∃ cid st pc qr,
      v = PyVal.dict
        [("success", PyVal.bool true), ("txid", PyVal.str txid),
         ("cashtime_id", cid), ("amount", PyVal.float a),
         ("currency", PyVal.str "BRL"), ("description", PyVal.str desc),
         ("status", st), ("pix_code", pc), ("qr_code_image", qr),
         ("expires_at", PyVal.str e1), ("created_at", PyVal.str e2),
         ("payer", PyVal.dict
           [("name", optPy d.name), ("cpf", optPy d.cpf), ("email", optPy d.email)]),
         ("cashtime_response", res)] := by
  unfold formatCreateResult at h
  obtain ⟨pix_data, h1, h⟩ := exceptBindOk _ _ _ h
  obtain ⟨pc, h2, h⟩ := exceptBindOk _ _ _ h
  obtain ⟨qr, h3, h⟩ := exceptBindOk _ _ _ h
  obtain ⟨cid, h4, h⟩ := exceptBindOk _ _ _ h
  obtain ⟨st, h5, h⟩ := exceptBindOk _ _ _ h
  cases h
  exact ⟨cid, st, pc, qr, rfl⟩

/-- C2: a missing or falsy `amount` or `description` makes
`create_pix_payment` raise the validation error naming the missing
field (checked in the order amount, description), with no POST issued
— the outcome is the same for every network behaviour. -/
theorem create_validation (c : CashtimeAPI) (d : PaymentData)
    (txid e1 e2 : String) (net : NetResult) :
    (amountFalsy d = true →
      create_pix_payment c d txid e1 e2 net =
        (Except.error "Erro ao processar pagamento: Campo obrigatório ausente: amount",
         [])) ∧
    (amountFalsy d = false → descriptionFalsy d = true →
      create_pix_payment c d txid e1 e2 net =
        (Except.error "Erro ao processar pagamento: Campo obrigatório ausente: description",
         [])) := by
  constructor
  · intro hA
    unfold create_pix_payment createBody
    cases ham : d.amount with
    | none => rfl
    | some a =>
      have h0 : a = 0 := by
        unfold amountFalsy at hA
        rw [ham] at hA
        simpa using hA
      simp [h0]
  · intro hA hD
    unfold create_pix_payment createBody
    cases ham : d.amount with
    | none =>
      unfold amountFalsy at hA
      rw [ham] at hA
      simp at hA
    | some a =>
      have h0 : ¬ a = 0 := by
        unfold amountFalsy at hA
        rw [ham] at hA
        simpa using hA
      cases hde : d.description with
      | none => simp [h0]
      | some desc =>
        have hd0 : desc = "" := by
          unfold descriptionFalsy optFalsy optStrTruthy at hD
          rw [hde] at hD
          simpa using hD
        simp [h0, hd0]

/-- C2 witness: a concrete request with no amount raises the
amount-naming validation error with no POST. -/
theorem create_validation_witness :
    amountFalsy sampleDataNoAmount = true ∧
    create_pix_payment sampleClient sampleDataNoAmount "t" "e1" "e2"
        (NetResult.exn "boom") =
      (Except.error "Erro ao processar pagamento: Campo obrigatório ausente: amount",
       []) :=
  ⟨rfl,
   (create_validation sampleClient sampleDataNoAmount "t" "e1" "e2"
     (NetResult.exn "boom")).1 rfl⟩

/-- C4 (amended): for every response with status ≥ 400 (the statuses
`response.ok` rejects), `create_pix_payment` raises: 403 yields the
authentication error, 400 the provider-validation error, and any other
status ≥ 400 the generic API error carrying the original status code;
no such status returns a result. -/
theorem create_error_status_mapping (c : CashtimeAPI) (d : PaymentData) (a : ℚ)
    (desc txid e1 e2 : String) (r : HttpResponse)
    (ha : d.amount = Option.some a) (ha0 : a ≠ 0)
    (hd : d.description = Option.some desc) (hd0 : desc ≠ "")
    (hs : 400 ≤ r.status_code) :
    (create_pix_payment c d txid e1 e2 (NetResult.resp r)).1 =
      Except.error
        (if r.status_code = 403 then
          "Erro ao processar pagamento: Erro de autenticação. Verifique sua secret key da Cashtime"
         else if r.status_code = 400 then
          "Erro ao processar pagamento: Dados inválidos enviados para a API"
         else
          "Erro ao processar pagamento: " ++
            ("Erro na API Cashtime: " ++ toString r.status_code)) := by
  unfold create_pix_payment
  rw [createBody_validated d a desc txid e1 e2 (NetResult.resp r) ha ha0 hd hd0]
  unfold createAfterValidation
  by_cases h403 : r.status_code = 403
  · simp [hs, h403]
  · by_cases h400 : r.status_code = 400
    · simp [hs, h403, h400]
    · simp [hs, h403, h400]

/-- C4 amended witness: a concrete 500 response raises the API error
carrying the code. -/
theorem create_error_status_mapping_witness :
    (sampleData.amount = Option.some (5 : ℚ) ∧ (5 : ℚ) ≠ 0 ∧
      sampleData.description = Option.some "Pagamento de teste" ∧
      ("Pagamento de teste" : String) ≠ "" ∧ 400 ≤ (sampleResp 500).status_code) ∧
    (create_pix_payment sampleClient sampleData "t" "e1" "e2"
        (NetResult.resp (sampleResp 500))).1 =
      Except.error
        (if (sampleResp 500).status_code = 403 then
          "Erro ao processar pagamento: Erro de autenticação. Verifique sua secret key da Cashtime"
         else if (sampleResp 500).status_code = 400 then
          "Erro ao processar pagamento: Dados inválidos enviados para a API"
         else
          "Erro ao processar pagamento: " ++
            ("Erro na API Cashtime: " ++ toString (sampleResp 500).status_code)) :=
  ⟨⟨rfl, by decide, rfl, by decide, by decide⟩,
   create_error_status_mapping sampleClient sampleData 5 "Pagamento de teste"
     "t" "e1" "e2" (sampleResp 500) rfl (by decide) rfl (by decide) (by decide)⟩

/-- C4 counterexample: the claim maps every non-2xx status to a raised
error, but a 304 response (non-2xx, yet accepted by `response.ok`,
which only rejects statuses ≥ 400) makes `create_pix_payment` return a
success result instead of raising. -/
theorem create_non2xx_returns_result :
    ((sampleResp 304).status_code < 200 ∨ 300 ≤ (sampleResp 304).status_code) ∧
    ∃ v, (create_pix_payment sampleClient sampleData "t" "e1" "e2"
      (NetResult.resp (sampleResp 304))).1 = Except.ok v := by
  exact ⟨Or.inr (by decide), ⟨_, rfl⟩⟩

/-- C3 counterexample: for the accepted amount 19.90 the payload
carries 1989 cents (CPython: `int(19.9 * 100) == 1989`, since the
double nearest 19.9 times 100 rounds to 1989.9999999999998), while
`round_toward_zero(19.90 × 100) = 1990`; so the claimed conversion law
fails at its own example. -/
theorem amount_truncation_counterexample :
    amountFalsy sampleData199 = false ∧
    descriptionFalsy sampleData199 = false ∧
    ((create_pix_payment sampleClient sampleData199 "t" "e1" "e2"
        (NetResult.resp (sampleResp 200))).2.map CashtimePayload.amount = [1989]) ∧
    ((create_pix_payment sampleClient sampleData199 "t" "e1" "e2"
        (NetResult.resp (sampleResp 200))).2.map
          (fun p => p.items.map Item.unitPrice) = [[1989]]) ∧
    truncToward0 (qMulNat (mkRat 199 10) 100) = 1990 := by
  refine ⟨rfl, rfl, ?_, ?_, by decide⟩
  · rw [create_snd,
      createBody_validated sampleData199 (mkRat 199 10) "Pagamento de teste"
        "t" "e1" "e2" (NetResult.resp (sampleResp 200)) rfl (by decide) rfl (by decide),
      createAfterValidation_snd]
    simp [buildPayload]
    decide
  · rw [create_snd,
      createBody_validated sampleData199 (mkRat 199 10) "Pagamento de teste"
        "t" "e1" "e2" (NetResult.resp (sampleResp 200)) rfl (by decide) rfl (by decide),
      createAfterValidation_snd]
    simp [buildPayload]
    decide

/-- C3 (amended): for every accepted amount `a` the payload carries
`int(float(a) * 100)` under IEEE-754 binary64 semantics — the nearest
double to `a`, multiplied by 100 with one rounding, truncated toward
zero — both as the item `unitPrice` and the top-level `amount`.  This
truncates (10.005 ↦ 1000) but is not exact truncation of `a × 100`
(19.90 ↦ 1989, not 1990). -/
theorem amount_conversion (c : CashtimeAPI) (d : PaymentData) (a : ℚ)
    (desc txid e1 e2 : String) (net : NetResult)
    (ha : d.amount = Option.some a) (ha0 : a ≠ 0)
    (hd : d.description = Option.some desc) (hd0 : desc ≠ "") :
    ((create_pix_payment c d txid e1 e2 net).2.map CashtimePayload.amount =
      [amountCents a]) ∧
    ((create_pix_payment c d txid e1 e2 net).2.map
      (fun p => p.items.map Item.unitPrice) = [[amountCents a]]) ∧
    amountCents (mkRat 2001 200) = 1000 ∧
    amountCents (mkRat 199 10) = 1989 := by
  refine ⟨?_, ?_, by decide, by decide⟩
  · rw [create_snd, createBody_validated d a desc txid e1 e2 net ha ha0 hd hd0,
      createAfterValidation_snd]
    simp [buildPayload]
  · rw [create_snd, createBody_validated d a desc txid e1 e2 net ha ha0 hd hd0,
      createAfterValidation_snd]
    simp [buildPayload]

/-- C3 amended witness: concrete run at amount 19.90. -/
theorem amount_conversion_witness :
    (sampleData199.amount = Option.some (mkRat 199 10) ∧ mkRat 199 10 ≠ 0 ∧
      sampleData199.description = Option.some "Pagamento de teste" ∧
      ("Pagamento de teste" : String) ≠ "") ∧
    ((create_pix_payment sampleClient sampleData199 "t" "e1" "e2"
        (NetResult.exn "timeout")).2.map CashtimePayload.amount =
      [amountCents (mkRat 199 10)]) :=
  ⟨⟨rfl, by decide, rfl, by decide⟩,
   (amount_conversion sampleClient sampleData199 (mkRat 199 10) "Pagamento de teste"
     "t" "e1" "e2" (NetResult.exn "timeout") rfl (by decide) rfl (by decide)).1⟩

set_option maxHeartbeats 1000000 in
/-- Every string occurring in a built payload is a payload constant or
comes from the input data. -/
theorem buildPayload_strings_sub (d : PaymentData) (cents : ℤ) (s : String)
    (hs : s ∈ (buildPayload d cents).strings) :
    s ∈ payloadConstants ∨ s ∈ dataStrings d := by
  simp only [buildPayload, CashtimePayload.strings, List.map_cons, List.map_nil,
    List.flatten_cons, List.flatten_nil, List.append_nil, List.mem_append,
    List.mem_cons, List.not_mem_nil, or_false, payloadConstants, payloadKeys,
    dataStrings] at hs ⊢
  tauto

/-- A call POSTs either nothing (failed validation) or exactly the one
payload built from the data and the converted amount. -/
theorem create_posts_cases (c : CashtimeAPI) (d : PaymentData)
    (txid e1 e2 : String) (net : NetResult) :
    (create_pix_payment c d txid e1 e2 net).2 = [] ∨
    ∃ a, (create_pix_payment c d txid e1 e2 net).2 =
      [buildPayload d (amountCents a)] := by
  rw [create_snd]
  unfold createBody
  cases ham : d.amount with
  | none => exact Or.inl rfl
  | some a =>
    by_cases h0 : a = 0
    · simp [h0]
    · cases hde : d.description with
      | none => simp [h0]
      | some desc =>
        by_cases hd0 : desc = ""
        · simp [h0, hd0]
        · right
          refine ⟨a, ?_⟩
          simp [h0, hd0, createAfterValidation_snd]

/-- A successful `try` body implies the input passed validation and the
result came from the formatter. -/
theorem createBody_ok_inv (d : PaymentData) (txid e1 e2 : String)
    (net : NetResult) (v : PyVal)
    (h : (createBody d txid e1 e2 net).1 = Except.ok v) :
    ∃ a desc, d.amount = Option.some a ∧ ¬ a = 0 ∧
      d.description = Option.some desc ∧ ¬ desc = "" ∧
      (createAfterValidation d a desc txid e1 e2 net).1 = Except.ok v := by
  unfold createBody at h
  cases ham : d.amount with
  | none => rw [ham] at h; simp at h
  | some a =>
    rw [ham] at h
    by_cases h0 : a = 0
    · simp [h0] at h
    · cases hde : d.description with
      | none => rw [hde] at h; simp [h0] at h
      | some desc =>
        rw [hde] at h
        by_cases hd0 : desc = ""
        · simp [h0, hd0] at h
        · refine ⟨a, desc, rfl, h0, rfl, hd0, ?_⟩
          simpa [h0, hd0] using h

/-- C9: the client-generated transaction identifier does not occur
anywhere in the payload sent to the provider (whenever it differs from
the payload's constants and from the caller-supplied strings, as a
freshly generated identifier does), and on success it is attached to
the returned result under the `txid` key. -/
theorem txid_private (c : CashtimeAPI) (d : PaymentData)
    (txid e1 e2 : String) (net : NetResult)
    (hcon : txid ∉ payloadConstants) (hdat : txid ∉ dataStrings d) :
    (∀ p ∈ (create_pix_payment c d txid e1 e2 net).2, txid ∉ p.strings) ∧
    (∀ v, (create_pix_payment c d txid e1 e2 net).1 = Except.ok v →
      v.get "txid" = Option.some (PyVal.str txid)) := by
  constructor
  · intro p hp hmem
    rcases create_posts_cases c d txid e1 e2 net with hnil | ⟨a, hone⟩
    · rw [hnil] at hp; simp at hp
    · rw [hone] at hp
      simp at hp
      subst hp
      rcases buildPayload_strings_sub d (amountCents a) txid hmem with h | h
      · exact hcon h
      · exact hdat h
  · intro v hv
    have hb := create_fst_ok c d txid e1 e2 net v hv
    obtain ⟨a, desc, ham, h0, hde, hd0, hav⟩ := createBody_ok_inv d txid e1 e2 net v hb
    obtain ⟨res, hres⟩ := createAfterValidation_ok d a desc txid e1 e2 net v hav
    obtain ⟨cid, st, pc, qr, rfl⟩ := formatCreateResult_ok res txid a desc e1 e2 d v hres
    simp [PyVal.get, lookupFirst]

/-- C9 witness: a concrete generated identifier is absent from the
payload strings and present in the result. -/
theorem txid_private_witness :
    (("CASHTIME1700000000ABCD1234" : String) ∉ payloadConstants ∧
     ("CASHTIME1700000000ABCD1234" : String) ∉ dataStrings sampleData) ∧
    (∀ p ∈ (create_pix_payment sampleClient sampleData "CASHTIME1700000000ABCD1234"
        "e1" "e2" (NetResult.resp (sampleResp 200))).2,
      ("CASHTIME1700000000ABCD1234" : String) ∉ p.strings) := by
  refine ⟨⟨by decide, by decide⟩, ?_⟩
  exact (txid_private sampleClient sampleData "CASHTIME1700000000ABCD1234"
    "e1" "e2" (NetResult.resp (sampleResp 200)) (by decide) (by decide)).1

/-- C10: every returned (not raised) result has `success = True`,
`currency = 'BRL'`, echoes the raw amount (major units) and
description, and takes the payer fields from the raw input (`None` when
absent) — while the POSTed payload substituted the default customer
values for those same fields. -/
theorem create_result_fields (c : CashtimeAPI) (d : PaymentData) (a : ℚ)
    (desc txid e1 e2 : String) (net : NetResult)
    (ha : d.amount = Option.some a) (ha0 : a ≠ 0)
    (hd : d.description = Option.some desc) (hd0 : desc ≠ "") :
    (∀ v, (create_pix_payment c d txid e1 e2 net).1 = Except.ok v →
      v.get "success" = Option.some (PyVal.bool true) ∧
      v.get "currency" = Option.some (PyVal.str "BRL") ∧
      v.get "amount" = Option.some (PyVal.float a) ∧
      v.get "description" = Option.some (PyVal.str desc) ∧
      v.get "payer" = Option.some (PyVal.dict
        [("name", optPy d.name), ("cpf", optPy d.cpf), ("email", optPy d.email)])) ∧
    (∀ p ∈ (create_pix_payment c d txid e1 e2 net).2,
      p.customer.name = d.name.getD "Cliente" ∧
      p.customer.email = d.email.getD "cliente@dominio.com.br" ∧
      p.customer.phone = d.phone.getD "11999999999" ∧
      p.customer.document.number = stripCpfPunct (d.cpf.getD "")) := by
  constructor
  · intro v hv
    have hb := create_fst_ok c d txid e1 e2 net v hv
    obtain ⟨a', desc', ham, h0, hde, hd0', hav⟩ := createBody_ok_inv d txid e1 e2 net v hb
    have haa : a = a' := by rw [ha] at ham; exact Option.some.inj ham
    have hdd : desc = desc' := by rw [hd] at hde; exact Option.some.inj hde
    subst haa; subst hdd
    obtain ⟨res, hres⟩ := createAfterValidation_ok d a desc txid e1 e2 net v hav
    obtain ⟨cid, st, pc, qr, rfl⟩ := formatCreateResult_ok res txid a desc e1 e2 d v hres
    refine ⟨?_, ?_, ?_, ?_, ?_⟩ <;> simp [PyVal.get, lookupFirst]
  · intro p hp
    rw [create_snd, createBody_validated d a desc txid e1 e2 net ha ha0 hd hd0,
      createAfterValidation_snd] at hp
    simp at hp
    subst hp
    simp [buildPayload]

/-- C10 witness: concrete run with no payer fields supplied — the
result reports them as `None` although the payload substituted the
defaults. -/
theorem create_result_fields_witness :
    (sampleData.amount = Option.some (5 : ℚ) ∧ (5 : ℚ) ≠ 0 ∧
      sampleData.description = Option.some "Pagamento de teste" ∧
      ("Pagamento de teste" : String) ≠ "") ∧
    (create_pix_payment sampleClient sampleData "t" "e1" "e2"
      (NetResult.resp (sampleResp 200))).1 = Except.ok sampleResult ∧
    sampleResult.get "payer" = Option.some (PyVal.dict
      [("name", PyVal.none), ("cpf", PyVal.none), ("email", PyVal.none)]) := by
  refine ⟨⟨rfl, by decide, rfl, by decide⟩, rfl, ?_⟩
  have h := (create_result_fields sampleClient sampleData 5 "Pagamento de teste"
      "t" "e1" "e2" (NetResult.resp (sampleResp 200)) rfl (by decide) rfl
      (by decide)).1 sampleResult rfl
  exact h.2.2.2.2

/-- C6: for a successful status lookup whose `orders` object carries a
truthy integer total `T`, the reported amount is `T / 100` under
Python's float true division (1990 minor units come back as exactly the
double `19.90`); a missing or zero total reports amount `0`. -/
theorem status_amount_roundtrip (c : CashtimeAPI) (txid : String)
    (r : HttpResponse) (bfs ofs : List (String × PyVal)) (T : ℤ)
    (h404 : r.status_code ≠ 404) (hok : r.status_code < 400)
    (hb : r.jsonBody = Except.ok (PyVal.dict bfs))
    (ho : lookupFirst bfs "orders" = Option.some (PyVal.dict ofs)) :
    (lookupFirst ofs "total" = Option.some (PyVal.int T) → T ≠ 0 →
      (check_payment_status c txid (NetResult.resp r)).get "amount" =
        Option.some (PyVal.float (floatDivInt T 100))) ∧
    ((lookupFirst ofs "total" = Option.none ∨
      lookupFirst ofs "total" = Option.some (PyVal.int 0)) →
      (check_payment_status c txid (NetResult.resp r)).get "amount" =
        Option.some (PyVal.int 0)) ∧
    floatDivInt 1990 100 = roundDouble (mkRat 199 10) := by
  have hok' : ¬ 400 ≤ r.status_code := by omega
  have h1 : checkBody txid (NetResult.resp r) =
      checkSuccessDict txid (PyVal.dict bfs) := by
    unfold checkBody
    simp [h404, hok', hb]
  refine ⟨?_, ?_, by decide⟩
  · intro htot hT
    have h2 : checkSuccessDict txid (PyVal.dict bfs) = Except.ok (PyVal.dict
        [("success", PyVal.bool true), ("txid", PyVal.str txid),
         ("status", (lookupFirst ofs "status").getD (PyVal.str "unknown")),
         ("amount", PyVal.float (floatDivInt T 100)),
         ("payment_method", (lookupFirst ofs "paymentMethod").getD PyVal.none),
         ("created_at", (lookupFirst ofs "createdAt").getD PyVal.none),
         ("updated_at", (lookupFirst ofs "updatedAt").getD PyVal.none),
         ("cashtime_response", PyVal.dict bfs)]) := by
      unfold checkSuccessDict computeAmount
      simp [pyDictGetD, ho, htot, pyTruthy, hT, Bind.bind, Except.bind, pyDiv100]
    unfold check_payment_status
    rw [h1, h2]
    simp [PyVal.get, lookupFirst]
  · intro htot
    have h2 : checkSuccessDict txid (PyVal.dict bfs) = Except.ok (PyVal.dict
        [("success", PyVal.bool true), ("txid", PyVal.str txid),
         ("status", (lookupFirst ofs "status").getD (PyVal.str "unknown")),
         ("amount", PyVal.int 0),
         ("payment_method", (lookupFirst ofs "paymentMethod").getD PyVal.none),
         ("created_at", (lookupFirst ofs "createdAt").getD PyVal.none),
         ("updated_at", (lookupFirst ofs "updatedAt").getD PyVal.none),
         ("cashtime_response", PyVal.dict bfs)]) := by
      unfold checkSuccessDict computeAmount
      rcases htot with hnone | hzero
      · simp [pyDictGetD, ho, hnone, pyTruthy, Bind.bind, Except.bind]
      · simp [pyDictGetD, ho, hzero, pyTruthy, Bind.bind, Except.bind]
    unfold check_payment_status
    rw [h1, h2]
    simp [PyVal.get, lookupFirst]

/-- C6 witness: a provider total of 1990 minor units is reported back
as the float `19.90`. -/
theorem status_amount_roundtrip_witness :
    (sampleStatusResp.status_code ≠ 404 ∧ sampleStatusResp.status_code < 400 ∧
      lookupFirst sampleOrders "total" = Option.some (PyVal.int 1990) ∧
      (1990 : ℤ) ≠ 0) ∧
    (check_payment_status sampleClient "tx-1"
        (NetResult.resp sampleStatusResp)).get "amount" =
      Option.some (PyVal.float (floatDivInt 1990 100)) := by
  refine ⟨⟨by decide, by decide, rfl, by decide⟩, ?_⟩
  exact (status_amount_roundtrip sampleClient "tx-1" sampleStatusResp
    [("orders", PyVal.dict sampleOrders)] sampleOrders 1990
    (by decide) (by decide) rfl rfl).1 rfl (by decide)
